import Mathlib

set_option autoImplicit false

/-!
Shallow embedding of the reminder, pagination, starboard and sync modules of
the bot repository (src/bot/cogs/reminders.py, src/bot/pagination.py,
src/bot/cogs/starboard.py, src/bot/cogs/sync/cog.py), together with theorems
settling the behavioural claims about them.

Remote calls and message operations are modelled by explicit outcome flags
(true = the call completed, false = it raised a transport error), and Python
exceptions by Except results.  The Scheduler base class lives in
bot/utils/scheduling.py, which is not part of the sources here; it is
modelled from the specification, as marked on the definitions below.
-/

/-- Python-level failures that the embedded code can raise: transport errors
from remote calls and message operations, the TypeError raised by evaluating
len on the result of subtracting from a list, the IndexError raised by keyed
assignment into a list, and the RuntimeError raised for an oversized line. -/
inductive PyErr where
  | transport
  | typeError
  | indexError
  | runtimeError
  deriving DecidableEq, Repr

/-! ## Reminders (src/bot/cogs/reminders.py) -/

/-- MAXIMUM_REMINDERS from src/bot/cogs/reminders.py line 23. -/
def MAXIMUM_REMINDERS : Nat := 5

/-- A row of the remote reminder store: the id the store assigned and the
owning author. -/
structure RemEntry where
  rid : Nat
  author : Nat
  deriving DecidableEq, Repr

/-- The remote reminder store: its rows and the id the next POST will
assign. -/
structure RemStore where
  nextId : Nat
  rows : List RemEntry
  deriving DecidableEq, Repr

/-- Modelled from the spec: class Scheduler (bot/utils/scheduling.py) is not
under src/.  Section 4.1: schedule_task starts one deferred execution for a
task id and never silently replaces a live entry.  Only the set of live task
ids matters here. -/
def schedule_task (tasks : List Nat) (tid : Nat) : List Nat :=
  if tid ∈ tasks then tasks else tasks ++ [tid]

/-- Modelled from the spec: class Scheduler (bot/utils/scheduling.py) is not
under src/.  Section 4.1: cancel_task removes the live entry for the id when
one exists and is an idempotent no-op otherwise. -/
def cancel_task (tasks : List Nat) (tid : Nat) : List Nat :=
  tasks.filter (fun t => t ≠ tid)

/-- The state the reminder cog acts on: the remote store and the scheduler's
live task ids. -/
structure BotState where
  store : RemStore
  tasks : List Nat
  deriving DecidableEq, Repr

/-- Result of one invocation of the reminder create command. -/
inductive CreateRes where
  | rejectedChannel
  | rejectedLimit
  | created (tid : Nat)
  deriving DecidableEq, Repr

/-- The accepted tail of Reminders.new_reminder (lines 188-204): POST to
bot/reminders (the store assigns the id and stores the row), then
schedule_task under the id the store returned. -/
def accept_reminder (author : Nat) (st : BotState) : CreateRes × BotState :=
  (CreateRes.created st.store.nextId,
   { store := { nextId := st.store.nextId + 1,
                rows := st.store.rows ++ [⟨st.store.nextId, author⟩] },
     tasks := schedule_task st.tasks st.store.nextId })

/-- Reminders.new_reminder (lines 152-204).  privileged is the test
ctx.author.top_role.id in STAFF_ROLES, whitelisted the test ctx.channel.id in
WHITELISTED_CHANNELS.  An unprivileged caller outside a whitelisted channel is
turned away; an unprivileged caller whose stored reminder count is strictly
greater than MAXIMUM_REMINDERS is turned away; otherwise the reminder is
written to the store and scheduled. -/
def new_reminder (privileged whitelisted : Bool) (author : Nat) (st : BotState) :
    CreateRes × BotState :=
  if privileged = false ∧ whitelisted = false then
    (CreateRes.rejectedChannel, st)
  else if privileged = false ∧
      (st.store.rows.filter (fun e => e.author = author)).length > MAXIMUM_REMINDERS then
    (CreateRes.rejectedLimit, st)
  else
    accept_reminder author st

/-- Repeated invocation of the create command, one reminder at a time,
collecting each invocation's result. -/
def create_seq (privileged whitelisted : Bool) (author : Nat) :
    Nat → BotState → List CreateRes × BotState
  | 0, st => ([], st)
  | Nat.succ n, st =>
    match new_reminder privileged whitelisted author st with
    | (r, st1) =>
      match create_seq privileged whitelisted author n st1 with
      | (rs, st2) => (r :: rs, st2)

/-- A state in which author 7 already has exactly MAXIMUM_REMINDERS = 5 active
reminders, each scheduled. -/
def c1state5 : BotState :=
  { store := { nextId := 5,
               rows := [⟨0, 7⟩, ⟨1, 7⟩, ⟨2, 7⟩, ⟨3, 7⟩, ⟨4, 7⟩] },
    tasks := [0, 1, 2, 3, 4] }

/-- C1 fails on the code: an unprivileged caller in a whitelisted channel who
already has the maximum number (5) of active reminders is not rejected — the
guard on line 180 uses a strict greater-than, so the sixth create is accepted,
written to the store (6 rows) and scheduled (6 live tasks). -/
theorem c1_counterexample :
    (new_reminder false true 7 c1state5).1 = CreateRes.created 5 ∧
    (new_reminder false true 7 c1state5).2.store.rows.length = 6 ∧
    (new_reminder false true 7 c1state5).2.tasks.length = 6 := by
  decide

/-- C1 amended: an unprivileged caller outside the whitelisted channels is
rejected with no store write and no scheduling; an unprivileged caller with
strictly more than 5 stored reminders is rejected likewise; every accepted
create writes the row and schedules under the id the store returned; and an
unprivileged user creating reminders one at a time in a whitelisted channel
has the first 6 succeed and the 7th rejected, leaving exactly 6 rows and 6
live scheduler entries. -/
theorem c1_amended :
    (∀ author st, new_reminder false false author st = (CreateRes.rejectedChannel, st)) ∧
    (∀ author st,
      (st.store.rows.filter (fun e => e.author = author)).length > MAXIMUM_REMINDERS →
      new_reminder false true author st = (CreateRes.rejectedLimit, st)) ∧
    (∀ privileged whitelisted author st tid,
      (new_reminder privileged whitelisted author st).1 = CreateRes.created tid →
      tid = st.store.nextId ∧
      (⟨tid, author⟩ : RemEntry) ∈ (new_reminder privileged whitelisted author st).2.store.rows ∧
      tid ∈ (new_reminder privileged whitelisted author st).2.tasks) ∧
    (create_seq false true 7 7 ⟨⟨0, []⟩, []⟩ =
      ([CreateRes.created 0, CreateRes.created 1, CreateRes.created 2,
        CreateRes.created 3, CreateRes.created 4, CreateRes.created 5,
        CreateRes.rejectedLimit],
       { store := { nextId := 6,
                    rows := [⟨0, 7⟩, ⟨1, 7⟩, ⟨2, 7⟩, ⟨3, 7⟩, ⟨4, 7⟩, ⟨5, 7⟩] },
         tasks := [0, 1, 2, 3, 4, 5] })) := by
  refine ⟨?_, ?_, ?_, by decide⟩
  · intro author st
    simp [new_reminder]
  · intro author st h
    simp [new_reminder, h]
  · intro privileged whitelisted author st tid h
    by_cases h1 : privileged = false ∧ whitelisted = false
    · simp [new_reminder, h1] at h
    · by_cases h2 : privileged = false ∧
        (st.store.rows.filter (fun e => e.author = author)).length > MAXIMUM_REMINDERS
      · simp only [new_reminder, if_neg h1, if_pos h2] at h
        exact absurd h (by simp)
      · simp only [new_reminder, if_neg h1, if_neg h2] at h ⊢
        simp only [accept_reminder] at h ⊢
        cases h
        refine ⟨rfl, ?_, ?_⟩
        · simp
        · simp [schedule_task]
          by_cases hmem : st.store.nextId ∈ st.tasks <;> simp [hmem]

/-- Witness for c1_amended at concrete inputs. -/
theorem c1_witness :
    new_reminder false false 3 c1state5 = (CreateRes.rejectedChannel, c1state5) ∧
    ((c1state5.store.rows.filter (fun e => e.author = 9)).length > MAXIMUM_REMINDERS →
      new_reminder false true 9 c1state5 = (CreateRes.rejectedLimit, c1state5)) ∧
    (5 = c1state5.store.nextId ∧
      (⟨5, 7⟩ : RemEntry) ∈ (new_reminder true true 7 c1state5).2.store.rows ∧
      5 ∈ (new_reminder true true 7 c1state5).2.tasks) := by
  refine ⟨c1_amended.1 3 c1state5, fun h => c1_amended.2.1 9 c1state5 h, ?_⟩
  exact c1_amended.2.2.1 true true 7 c1state5 5 (by decide)

/-- Outcomes of the three fallible remote or message operations inside one run
of the fire coroutine: channel.send inside send_reminder, the DELETE issued by
the delete_reminder call at the end of send_reminder (line 141), and the
DELETE issued by the second delete_reminder call (line 81). -/
structure FireOutcome where
  sendOk : Bool
  delete1Ok : Bool
  delete2Ok : Bool
  deriving DecidableEq, Repr

/-- Reminders._delete_reminder (lines 86-96): DELETE bot/reminders/id, then
cancel_task.  When the DELETE raises, the exception propagates and cancel_task
is never reached. -/
def delete_reminder (ok : Bool) (tid : Nat) (st : BotState) :
    Except PyErr Unit × BotState :=
  if ok then
    (Except.ok (),
     ({ store := { st.store with rows := st.store.rows.filter (fun e => e.rid ≠ tid) },
        tasks := cancel_task st.tasks tid } : BotState))
  else
    (Except.error PyErr.transport, st)

/-- The body of Reminders._scheduled_task after the deadline wait (lines
77-84): send_reminder, whose own last step is a delete_reminder call (line
141), then delete_reminder again (line 81), then cancel_task (line 84).  Any
transport error propagates out of the coroutine at the point it occurs. -/
def scheduled_task_body (o : FireOutcome) (tid : Nat) (st : BotState) :
    Except PyErr Unit × BotState :=
  if o.sendOk = false then (Except.error PyErr.transport, st)
  else
    match delete_reminder o.delete1Ok tid st with
    | (Except.error e, st1) => (Except.error e, st1)
    | (Except.ok _, st1) =>
      match delete_reminder o.delete2Ok tid st1 with
      | (Except.error e, st2) => (Except.error e, st2)
      | (Except.ok _, st2) =>
        (Except.ok (), { st2 with tasks := cancel_task st2.tasks tid })

/-- Modelled from the spec: class Scheduler (bot/utils/scheduling.py) is not
under src/.  Section 4.1: the executor invokes the registered action and then
auto-removes the entry from the map, and when the action fails the failure is
logged and the entry is still removed. -/
def run_scheduled_task (o : FireOutcome) (tid : Nat) (st : BotState) : BotState :=
  match scheduled_task_body o tid st with
  | (_, st1) => { st1 with tasks := cancel_task st1.tasks tid }

/-- C2: after the fire action runs — whether it completes or raises at any of
its fallible steps — no scheduler entry for the task id remains, and when the
notification and the first remote DELETE went through, the remote record is
gone as well. -/
theorem c2_fire_clears_entry (o : FireOutcome) (tid : Nat) (st : BotState) :
    tid ∉ (run_scheduled_task o tid st).tasks ∧
    (o.sendOk = true → o.delete1Ok = true →
      (run_scheduled_task o tid st).store.rows =
        st.store.rows.filter (fun e => e.rid ≠ tid)) := by
  constructor
  · rcases o with ⟨s, d1, d2⟩
    cases s <;> cases d1 <;> cases d2 <;>
      simp [run_scheduled_task, scheduled_task_body, delete_reminder, cancel_task]
  · intro hs hd1
    rcases o with ⟨s, d1, d2⟩
    cases s
    · cases hs
    cases d1
    · cases hd1
    cases d2 <;>
      simp [run_scheduled_task, scheduled_task_body, delete_reminder, cancel_task,
            List.filter_filter]

/-- A state with two stored reminders, 7 and 8, both scheduled. -/
def c2state : BotState :=
  { store := { nextId := 9, rows := [⟨7, 1⟩, ⟨8, 2⟩] }, tasks := [7, 8] }

/-- Witness for c2_fire_clears_entry at a concrete input. -/
theorem c2_witness :
    7 ∉ (run_scheduled_task ⟨true, true, true⟩ 7 c2state).tasks ∧
    (run_scheduled_task ⟨true, true, true⟩ 7 c2state).store.rows =
      c2state.store.rows.filter (fun e => e.rid ≠ 7) :=
  ⟨(c2_fire_clears_entry ⟨true, true, true⟩ 7 c2state).1,
   (c2_fire_clears_entry ⟨true, true, true⟩ 7 c2state).2 rfl rfl⟩

/-- A reminder row as fetched by the startup recovery: the store id and the
absolute expiration timestamp. -/
structure Reminder where
  rid : Nat
  expiration : Nat
  deriving DecidableEq, Repr

/-- Observable recovery actions: an immediate fire with its lateness, an
attempted fire whose remote or message operation raised, and a hand-off to the
scheduler. -/
inductive RecEvent where
  | fire (tid late : Nat)
  | fireFail (tid : Nat)
  | sched (tid : Nat)
  deriving DecidableEq, Repr

/-- Reminders.on_ready (lines 32-51): walk the fetched active reminders; an
already-overdue one is fired immediately with lateness now minus deadline (the
relativedelta on line 47), the rest are handed to schedule_task.  Each overdue
fire carries an outcome flag; the loop body has no exception handling, so a
raised transport error propagates out of on_ready and the remaining reminders
are never processed. -/
def on_ready (now : Nat) : List (Reminder × Bool) → List RecEvent
  | [] => []
  | (r, ok) :: rest =>
    if r.expiration < now then
      if ok then RecEvent.fire r.rid (now - r.expiration) :: on_ready now rest
      else [RecEvent.fireFail r.rid]
    else
      RecEvent.sched r.rid :: on_ready now rest

/-- Tests whether a recovery event is a completed fire of the given task. -/
def is_fire_for (tid : Nat) : RecEvent → Bool
  | RecEvent.fire t _ => t == tid
  | _ => false

/-- In a failure-free recovery the trace is one event per fetched reminder:
fire with lateness now - expiration when overdue, otherwise a scheduler
hand-off. -/
theorem on_ready_trace (now : Nat) (rs : List Reminder) :
    on_ready now (rs.map (fun r => (r, true))) =
      rs.map (fun r =>
        if r.expiration < now then RecEvent.fire r.rid (now - r.expiration)
        else RecEvent.sched r.rid) := by
  induction rs with
  | nil => rfl
  | cons r rest ih =>
    by_cases h : r.expiration < now <;> simp [on_ready, h, ih]

/-- Fire events for a task id in a failure-free recovery trace are in
bijection with the overdue fetched reminders bearing that id. -/
theorem on_ready_fire_count (now tid : Nat) (rs : List Reminder) :
    (on_ready now (rs.map (fun r => (r, true)))).countP (is_fire_for tid) =
      rs.countP (fun r => r.rid == tid && decide (r.expiration < now)) := by
  induction rs with
  | nil => rfl
  | cons r rest ih =>
    by_cases h : r.expiration < now <;>
      simp [on_ready, h, List.countP_cons, ih, is_fire_for]

/-- C3: in a failure-free startup recovery, every fetched reminder whose
deadline is past is fired immediately with lateness now - deadline and is not
scheduled, every other fetched reminder is scheduled, and (for a fetch with
distinct ids) each overdue reminder's fire action appears exactly once in the
trace. -/
theorem c3_recovery (now : Nat) (rs : List Reminder)
    (hnd : (rs.map Reminder.rid).Nodup) :
    on_ready now (rs.map (fun r => (r, true))) =
      rs.map (fun r =>
        if r.expiration < now then RecEvent.fire r.rid (now - r.expiration)
        else RecEvent.sched r.rid) ∧
    (∀ r ∈ rs, r.expiration < now →
      (on_ready now (rs.map (fun r => (r, true)))).countP (is_fire_for r.rid) = 1) := by
  refine ⟨on_ready_trace now rs, ?_⟩
  intro r hr hlt
  rw [on_ready_fire_count]
  have hle : rs.countP (fun x => x.rid == r.rid && decide (x.expiration < now)) ≤
      rs.countP (fun x => x.rid == r.rid) :=
    List.countP_mono_left (fun x _ h => by
      simp only [Bool.and_eq_true] at h
      exact h.1)
  have hcount : rs.countP (fun x => x.rid == r.rid) = (rs.map Reminder.rid).count r.rid := by
    rw [List.count, List.countP_map]
    rfl
  have hone : (rs.map Reminder.rid).count r.rid ≤ 1 :=
    List.nodup_iff_count_le_one.mp hnd r.rid
  have hpos : 0 < rs.countP (fun x => x.rid == r.rid && decide (x.expiration < now)) :=
    List.countP_pos_iff.mpr ⟨r, hr, by simp [hlt]⟩
  omega

/-- Witness for c3_recovery at a concrete input: ids 1 and 2, deadline 3
overdue at time 10, deadline 20 still pending. -/
theorem c3_witness :
    on_ready 10 ([⟨1, 3⟩, ⟨2, 20⟩].map (fun r => (r, true))) =
      [RecEvent.fire 1 7, RecEvent.sched 2] ∧
    (on_ready 10 ([(⟨1, 3⟩ : Reminder), ⟨2, 20⟩].map (fun r => (r, true)))).countP
      (is_fire_for 1) = 1 := by
  have h := c3_recovery 10 [⟨1, 3⟩, ⟨2, 20⟩] (by decide)
  exact ⟨by rw [h.1]; decide, h.2 ⟨1, 3⟩ (by decide) (by decide)⟩

/-- C4 fails on the code: with two fetched reminders, the first overdue and
failing its fire, on_ready stops at the failure (there is no try/except in the
loop, lines 42-51) and the second reminder is neither fired nor scheduled. -/
theorem c4_counterexample :
    on_ready 10 [(⟨1, 0⟩, false), (⟨2, 20⟩, true)] = [RecEvent.fireFail 1] ∧
    RecEvent.sched 2 ∉ on_ready 10 [(⟨1, 0⟩, false), (⟨2, 20⟩, true)] := by
  decide

/-- C4 amended: a transport failure while recovering one task aborts the whole
remainder of startup recovery — every task fetched before the failing one is
still fired or scheduled, but the failing task's recovery ends with the raised
error and no later task is fired or scheduled. -/
theorem c4_amended (now : Nat) (pre : List (Reminder × Bool)) (r : Reminder)
    (rest : List (Reminder × Bool))
    (hpre : ∀ x ∈ pre, x.2 = true) (hlt : r.expiration < now) :
    on_ready now (pre ++ (r, false) :: rest) =
      on_ready now pre ++ [RecEvent.fireFail r.rid] := by
  induction pre with
  | nil => simp [on_ready, hlt]
  | cons x xs ih =>
    have hx : x.2 = true := hpre x (by simp)
    have hxs : ∀ y ∈ xs, y.2 = true := fun y hy => hpre y (by simp [hy])
    rcases x with ⟨xr, xok⟩
    rcases hx
    by_cases h : xr.expiration < now <;> simp [on_ready, h, ih hxs]

/-- Witness for c4_amended at a concrete input. -/
theorem c4_witness :
    on_ready 10 [((⟨5, 0⟩ : Reminder), true), ((⟨6, 1⟩ : Reminder), false),
        ((⟨7, 2⟩ : Reminder), true)] =
      on_ready 10 [((⟨5, 0⟩ : Reminder), true)] ++ [RecEvent.fireFail 6] :=
  c4_amended 10 [(⟨5, 0⟩, true)] ⟨6, 1⟩ [(⟨7, 2⟩, true)] (by decide) (by decide)

/-! ## Pagination (src/bot/pagination.py) -/

/-- The five accepted navigation affordances of both paginators. -/
inductive NavEvent where
  | firstPage
  | prevPage
  | nextPage
  | lastPage
  | closeView
  deriving DecidableEq, Repr

/-- Result of one dispatched navigation event: leave the loop or continue on a
page index. -/
inductive StepRes where
  | stop
  | cont (p : Nat)
  deriving DecidableEq, Repr

/-- Page-index transition of one dispatch of the LinePaginator.paginate
reaction loop body (lines 221-295); npages is len(paginator.pages) and p the
current page.  The delete emoji breaks out; first and last jump
unconditionally; previous and next are guarded no-ops at the boundaries. -/
def line_step (npages p : Nat) : NavEvent → StepRes
  | NavEvent.closeView => StepRes.stop
  | NavEvent.firstPage => StepRes.cont 0
  | NavEvent.lastPage => StepRes.cont (npages - 1)
  | NavEvent.prevPage => if p ≤ 0 then StepRes.cont p else StepRes.cont (p - 1)
  | NavEvent.nextPage =>
    if p ≥ npages - 1 then StepRes.cont p else StepRes.cont (p + 1)

/-- Page-index transition of one dispatch of the ImagePaginator.paginate loop
body (lines 425-463).  The lastPage branch off the boundary evaluates
len(paginator.pages - 1) — subtraction from the page list itself (line 444) —
which is a Python TypeError. -/
def image_step (npages p : Nat) : NavEvent → Except PyErr StepRes
  | NavEvent.closeView => Except.ok StepRes.stop
  | NavEvent.firstPage =>
    if p = 0 then Except.ok (StepRes.cont p) else Except.ok (StepRes.cont 0)
  | NavEvent.lastPage =>
    if p ≥ npages - 1 then Except.ok (StepRes.cont p) else Except.error PyErr.typeError
  | NavEvent.prevPage =>
    if p ≤ 0 then Except.ok (StepRes.cont p) else Except.ok (StepRes.cont (p - 1))
  | NavEvent.nextPage =>
    if p ≥ npages - 1 then Except.ok (StepRes.cont p) else Except.ok (StepRes.cont (p + 1))

/-- C5: with L = npages - 1, the LinePaginator transitions match the table for
every event, and the ImagePaginator transitions match it for close, first,
previous and next — but the last event on any non-final page raises a
TypeError (len of pages - 1, line 444) instead of moving to L; in particular
on two pages at page 0 it crashes the loop.  The claim is right about the
intended behaviour and the code deviates on exactly this branch. -/
theorem c5_transition_table (npages p : Nat) :
    line_step npages p NavEvent.closeView = StepRes.stop ∧
    line_step npages p NavEvent.firstPage = StepRes.cont 0 ∧
    line_step npages p NavEvent.lastPage = StepRes.cont (npages - 1) ∧
    line_step npages p NavEvent.prevPage = StepRes.cont (if p = 0 then p else p - 1) ∧
    line_step npages p NavEvent.nextPage =
      StepRes.cont (if p ≥ npages - 1 then p else p + 1) ∧
    image_step npages p NavEvent.closeView = Except.ok StepRes.stop ∧
    image_step npages p NavEvent.firstPage = Except.ok (StepRes.cont (if p = 0 then p else 0)) ∧
    image_step npages p NavEvent.prevPage =
      Except.ok (StepRes.cont (if p = 0 then p else p - 1)) ∧
    image_step npages p NavEvent.nextPage =
      Except.ok (StepRes.cont (if p ≥ npages - 1 then p else p + 1)) ∧
    image_step npages p NavEvent.lastPage =
      (if p ≥ npages - 1 then Except.ok (StepRes.cont p) else Except.error PyErr.typeError) ∧
    image_step 2 0 NavEvent.lastPage = Except.error PyErr.typeError := by
  refine ⟨rfl, rfl, rfl, ?_, ?_, rfl, ?_, ?_, ?_, rfl, rfl⟩
  all_goals simp only [line_step, image_step, Nat.le_zero]
  all_goals split <;> rfl

/-- One accepted event of the LinePaginator loop together with the outcomes of
the transport operations its handling performs: the remove_reaction call and
the two message.edit calls of the re-render. -/
structure LineEvt where
  ev : NavEvent
  removeOk : Bool
  edit1Ok : Bool
  edit2Ok : Bool
  deriving DecidableEq, Repr

/-- The LinePaginator.paginate reaction loop (lines 213-298) over a finite
stream of accepted events; the end of the list is the wait_for timeout, and
clearOk is the outcome of the final clear_reactions call.  None of the
transport operations is guarded by a try/except, so the first failing one
raises out of paginate; a normal exit returns the final page index. -/
def line_run (clearOk : Bool) (npages : Nat) : Nat → List LineEvt → Except PyErr Nat
  | p, [] => if clearOk then Except.ok p else Except.error PyErr.transport
  | p, e :: rest =>
    match e.ev with
    | NavEvent.closeView =>
      if clearOk then Except.ok p else Except.error PyErr.transport
    | NavEvent.firstPage =>
      if e.removeOk = false then Except.error PyErr.transport
      else if e.edit1Ok = false then Except.error PyErr.transport
      else if e.edit2Ok = false then Except.error PyErr.transport
      else line_run clearOk npages 0 rest
    | NavEvent.lastPage =>
      if e.removeOk = false then Except.error PyErr.transport
      else if e.edit1Ok = false then Except.error PyErr.transport
      else if e.edit2Ok = false then Except.error PyErr.transport
      else line_run clearOk npages (npages - 1) rest
    | NavEvent.prevPage =>
      if e.removeOk = false then Except.error PyErr.transport
      else if p ≤ 0 then line_run clearOk npages p rest
      else if e.edit1Ok = false then Except.error PyErr.transport
      else if e.edit2Ok = false then Except.error PyErr.transport
      else line_run clearOk npages (p - 1) rest
    | NavEvent.nextPage =>
      if e.removeOk = false then Except.error PyErr.transport
      else if p ≥ npages - 1 then line_run clearOk npages p rest
      else if e.edit1Ok = false then Except.error PyErr.transport
      else if e.edit2Ok = false then Except.error PyErr.transport
      else line_run clearOk npages (p + 1) rest

/-- The ImagePaginator.paginate reaction loop (lines 413-480), same reading as
line_run.  Here remove_reaction runs before the event is even dispatched
(line 422), and the off-boundary last event raises the line 444 TypeError. -/
def image_run (clearOk : Bool) (npages : Nat) : Nat → List LineEvt → Except PyErr Nat
  | p, [] => if clearOk then Except.ok p else Except.error PyErr.transport
  | p, e :: rest =>
    if e.removeOk = false then Except.error PyErr.transport
    else
      match e.ev with
      | NavEvent.closeView =>
        if clearOk then Except.ok p else Except.error PyErr.transport
      | NavEvent.firstPage =>
        if p = 0 then image_run clearOk npages p rest
        else if e.edit1Ok = false then Except.error PyErr.transport
        else if e.edit2Ok = false then Except.error PyErr.transport
        else image_run clearOk npages 0 rest
      | NavEvent.lastPage =>
        if p ≥ npages - 1 then image_run clearOk npages p rest
        else Except.error PyErr.typeError
      | NavEvent.prevPage =>
        if p ≤ 0 then image_run clearOk npages p rest
        else if e.edit1Ok = false then Except.error PyErr.transport
        else if e.edit2Ok = false then Except.error PyErr.transport
        else image_run clearOk npages (p - 1) rest
      | NavEvent.nextPage =>
        if p ≥ npages - 1 then image_run clearOk npages p rest
        else if e.edit1Ok = false then Except.error PyErr.transport
        else if e.edit2Ok = false then Except.error PyErr.transport
        else image_run clearOk npages (p + 1) rest

/-- C6 fails on the code: a single next event on page 0 of 2 whose first
message.edit raises makes LinePaginator.paginate propagate the transport error
to its caller instead of logging it and waiting on. -/
theorem c6_counterexample :
    line_run true 2 0 [⟨NavEvent.nextPage, true, false, true⟩] =
      Except.error PyErr.transport := rfl

/-- In a run of the LinePaginator loop in which every transport operation
succeeds, no error reaches the caller. -/
theorem line_run_all_ok (npages : Nat) :
    ∀ (evts : List LineEvt) (p : Nat),
      (∀ e ∈ evts, e.removeOk = true ∧ e.edit1Ok = true ∧ e.edit2Ok = true) →
      ∃ q, line_run true npages p evts = Except.ok q := by
  intro evts
  induction evts with
  | nil => exact fun p _ => ⟨p, rfl⟩
  | cons e rest ih =>
    intro p h
    obtain ⟨hr, h1, h2⟩ := h e (List.mem_cons_self e rest)
    have hrest := fun x hx => h x (List.mem_cons_of_mem e hx)
    rcases e with ⟨ev, rOk, e1Ok, e2Ok⟩
    cases hr; cases h1; cases h2
    cases ev
    · simpa [line_run] using ih 0 hrest
    · by_cases hp : p ≤ 0 <;> simpa [line_run, hp] using ih _ hrest
    · by_cases hp : p ≥ npages - 1 <;> simpa [line_run, hp] using ih _ hrest
    · simpa [line_run] using ih (npages - 1) hrest
    · exact ⟨p, rfl⟩

/-- In a run of the ImagePaginator loop in which every transport operation
succeeds and no off-boundary last event occurs, no error reaches the
caller. -/
theorem image_run_all_ok (npages : Nat) :
    ∀ (evts : List LineEvt) (p : Nat),
      (∀ e ∈ evts, e.removeOk = true ∧ e.edit1Ok = true ∧ e.edit2Ok = true ∧
        e.ev ≠ NavEvent.lastPage) →
      ∃ q, image_run true npages p evts = Except.ok q := by
  intro evts
  induction evts with
  | nil => exact fun p _ => ⟨p, rfl⟩
  | cons e rest ih =>
    intro p h
    obtain ⟨hr, h1, h2, hev⟩ := h e (List.mem_cons_self e rest)
    have hrest := fun x hx => h x (List.mem_cons_of_mem e hx)
    rcases e with ⟨ev, rOk, e1Ok, e2Ok⟩
    cases hr; cases h1; cases h2
    cases ev
    · by_cases hp : p = 0 <;> simpa [image_run, hp] using ih _ hrest
    · by_cases hp : p ≤ 0 <;> simpa [image_run, hp] using ih _ hrest
    · by_cases hp : p ≥ npages - 1 <;> simpa [image_run, hp] using ih _ hrest
    · exact absurd rfl hev
    · exact ⟨p, rfl⟩

/-- C6 amended: neither paginate loop guards its transport operations, so the
loops exit normally — by timeout or the close affordance — exactly in runs
where no operation fails (and, for ImagePaginator, no off-boundary last event
occurs); the first failing remove_reaction, edit or clear_reactions raises out
of paginate to the caller, aborting the loop. -/
theorem c6_amended :
    (∀ npages p (evts : List LineEvt),
      (∀ e ∈ evts, e.removeOk = true ∧ e.edit1Ok = true ∧ e.edit2Ok = true) →
      ∃ q, line_run true npages p evts = Except.ok q) ∧
    (∀ npages p (evts : List LineEvt),
      (∀ e ∈ evts, e.removeOk = true ∧ e.edit1Ok = true ∧ e.edit2Ok = true ∧
        e.ev ≠ NavEvent.lastPage) →
      ∃ q, image_run true npages p evts = Except.ok q) ∧
    (∀ npages p (rest : List LineEvt), p < npages - 1 →
      line_run true npages p (⟨NavEvent.nextPage, true, false, true⟩ :: rest) =
        Except.error PyErr.transport) ∧
    (∀ npages p (rest : List LineEvt) (e : LineEvt), e.removeOk = false →
      image_run true npages p (e :: rest) = Except.error PyErr.transport) := by
  refine ⟨fun npages p evts h => line_run_all_ok npages evts p h,
          fun npages p evts h => image_run_all_ok npages evts p h, ?_, ?_⟩
  · intro npages p rest hp
    have hnp : ¬ (p ≥ npages - 1) := Nat.not_le.mpr hp
    simp [line_run, hnp]
  · intro npages p rest e he
    simp [image_run, he]

/-- Witness for c6_amended at concrete inputs. -/
theorem c6_witness :
    (∃ q, line_run true 3 0 [⟨NavEvent.nextPage, true, true, true⟩,
        ⟨NavEvent.closeView, true, true, true⟩] = Except.ok q) ∧
    (∃ q, image_run true 3 1 [⟨NavEvent.prevPage, true, true, true⟩] = Except.ok q) ∧
    line_run true 3 1 [⟨NavEvent.nextPage, true, false, true⟩] =
      Except.error PyErr.transport ∧
    image_run true 3 1 [⟨NavEvent.closeView, false, true, true⟩] =
      Except.error PyErr.transport :=
  ⟨c6_amended.1 3 0 _ (by decide), c6_amended.2.1 3 1 _ (by decide),
   c6_amended.2.2.1 3 1 [] (by decide), c6_amended.2.2.2 3 1 [] _ rfl⟩

/-- State of a LinePaginator: the prefix and suffix strings, the adjusted
maximum page size (the max_size argument minus the suffix length, line 50),
the optional maximum line count, the content lines of the page being built
(the leading prefix element of _current_page is kept implicit, its length is
accounted for in _count), the line counter, the running character count, and
the closed pages' content lines.  Counts are Int because Python arithmetic on
them may go negative. -/
structure LinePag where
  pfx : String
  sfx : String
  max_size : Int
  max_lines : Option Nat
  _current_page : List String
  _linecount : Nat
  _count : Int
  _pages : List (List String)
  deriving DecidableEq, Repr

/-- LinePaginator.__init__ (lines 40-55). -/
def line_pag_init (pfx0 sfx0 : String) (maxSizeArg : Nat) (maxLines0 : Option Nat) :
    LinePag :=
  { pfx := pfx0, sfx := sfx0,
    max_size := (maxSizeArg : Int) - (sfx0.length : Int),
    max_lines := maxLines0,
    _current_page := [], _linecount := 0,
    _count := (pfx0.length : Int) + 1, _pages := [] }

/-- Paginator.close_page from discord.ext.commands, as used by add_line: the
current page (prefix, content lines, suffix) is pushed onto _pages and a fresh
page is started holding just the prefix. -/
def close_page (st : LinePag) : LinePag :=
  { st with _pages := st._pages ++ [st._current_page],
            _current_page := [],
            _count := (st.pfx.length : Int) + 1 }

/-- The max_lines guard at the top of add_line (lines 83-88): once _linecount
has reached max_lines, reset it and close the page; then count the incoming
line. -/
def line_maxlines_step (st : LinePag) : LinePag :=
  match st.max_lines with
  | none => st
  | some m =>
    if st._linecount ≥ m then
      { close_page { st with _linecount := 0 } with _linecount := 1 }
    else
      { st with _linecount := st._linecount + 1 }

/-- The size guard of add_line (lines 89-90): close the page if appending the
line would push _count past max_size. -/
def line_size_step (st : LinePag) (l : String) : LinePag :=
  if st._count + (l.length : Int) + 1 > st.max_size then close_page st else st

/-- The append tail of add_line (lines 92-97): count and append the line, and
with empty=True also a blank separator line. -/
def line_append (st : LinePag) (l : String) (empty : Bool) : LinePag :=
  if empty then
    { st with _count := st._count + (l.length : Int) + 1 + 1,
              _current_page := st._current_page ++ [l, ""] }
  else
    { st with _count := st._count + (l.length : Int) + 1,
              _current_page := st._current_page ++ [l] }

/-- LinePaginator.add_line (lines 57-97): a line longer than
max_size - len(prefix) - 2 raises RuntimeError; otherwise the max_lines and
size guards may close the current page, and the line (plus optional blank) is
appended to the page then being built. -/
def add_line (st : LinePag) (l : String) (empty : Bool) : Except PyErr LinePag :=
  if (l.length : Int) > st.max_size - (st.pfx.length : Int) - 2 then
    Except.error PyErr.runtimeError
  else
    Except.ok (line_append (line_size_step (line_maxlines_step st) l) l empty)

/-- The paginate loop over the input lines (pagination.py lines 168-173):
add_line for each line in order, propagating its RuntimeError. -/
def add_lines (empty : Bool) : LinePag → List String → Except PyErr LinePag
  | st, [] => Except.ok st
  | st, l :: rest =>
    match add_line st l empty with
    | Except.error e => Except.error e
    | Except.ok st1 => add_lines empty st1 rest

/-- Paginator.pages: the closed pages, plus the page being built when it has
any content. -/
def pages (st : LinePag) : List (List String) :=
  if st._current_page = [] then st._pages else st._pages ++ [st._current_page]

/-- All content lines held by a paginator, closed pages first, in order. -/
def line_content (st : LinePag) : List String :=
  st._pages.flatten ++ st._current_page

/-- Closing a page moves lines between pages without changing the content. -/
theorem line_content_close_page (st : LinePag) :
    line_content (close_page st) = line_content st := by
  simp [line_content, close_page]

/-- The pages property lists exactly the held content lines. -/
theorem pages_join (st : LinePag) : (pages st).flatten = line_content st := by
  by_cases h : st._current_page = [] <;> simp [pages, line_content, h]

/-- An add_line below the size bound succeeds, appends exactly that line to
the held content, and leaves max_size and the prefix unchanged. -/
theorem add_line_ok (st : LinePag) (l : String)
    (h : ¬ (l.length : Int) > st.max_size - (st.pfx.length : Int) - 2) :
    ∃ st1, add_line st l false = Except.ok st1 ∧
      line_content st1 = line_content st ++ [l] ∧
      st1.max_size = st.max_size ∧ st1.pfx = st.pfx := by
  refine ⟨_, by rw [add_line, if_neg h], ?_, ?_, ?_⟩ <;>
    rcases hml : st.max_lines with _ | m <;>
      simp [line_append, line_size_step, line_maxlines_step, hml, close_page,
            line_content] <;>
      split <;>
      simp [line_content_close_page, line_content, close_page] <;>
      split <;>
      simp [close_page]

/-- Folding add_line over in-bound lines succeeds and appends them, in order,
to the held content. -/
theorem add_lines_join (M : Int) (pfx0 : String) :
    ∀ (lines : List String) (st : LinePag),
      st.max_size = M → st.pfx = pfx0 →
      (∀ l ∈ lines, (l.length : Int) ≤ M - (pfx0.length : Int) - 2) →
      ∃ st1, add_lines false st lines = Except.ok st1 ∧
        line_content st1 = line_content st ++ lines := by
  intro lines
  induction lines with
  | nil => exact fun st _ _ _ => ⟨st, rfl, by simp⟩
  | cons l rest ih =>
    intro st hM hp h
    have hl : ¬ (l.length : Int) > st.max_size - (st.pfx.length : Int) - 2 := by
      rw [hM, hp]
      exact not_lt.mpr (h l (List.mem_cons_self l rest))
    obtain ⟨st1, he, hc, hm1, hp1⟩ := add_line_ok st l hl
    obtain ⟨st2, he2, hc2⟩ := ih st1 (hm1.trans hM) (hp1.trans hp)
      (fun x hx => h x (List.mem_cons_of_mem l hx))
    refine ⟨st2, ?_, by rw [hc2, hc]; simp⟩
    rw [add_lines, he]
    exact he2

/-- C7: a single line longer than the per-page limit makes add_line raise
RuntimeError rather than truncate, and for any input whose lines are all
within the limit the packing succeeds and the concatenation, in order, of all
pages' lines is exactly the input sequence — so in particular no line is ever
split across two pages (each input line occurs as one whole element of one
page). -/
theorem c7_packing :
    (∀ st l empty, (l.length : Int) > st.max_size - (st.pfx.length : Int) - 2 →
      add_line st l empty = Except.error PyErr.runtimeError) ∧
    (∀ (pfx0 sfx0 : String) (maxSizeArg : Nat) (maxLines0 : Option Nat)
        (lines : List String),
      (∀ l ∈ lines, (l.length : Int) ≤
        (maxSizeArg : Int) - (sfx0.length : Int) - (pfx0.length : Int) - 2) →
      ∃ st, add_lines false (line_pag_init pfx0 sfx0 maxSizeArg maxLines0) lines =
          Except.ok st ∧
        (pages st).flatten = lines) := by
  constructor
  · intro st l empty h
    rw [add_line, if_pos h]
  · intro pfx0 sfx0 maxSizeArg maxLines0 lines h
    obtain ⟨st, he, hc⟩ :=
      add_lines_join ((maxSizeArg : Int) - (sfx0.length : Int)) pfx0 lines
        (line_pag_init pfx0 sfx0 maxSizeArg maxLines0) rfl rfl
        (fun l hl => by
          have := h l hl
          omega)
    exact ⟨st, he, by rw [pages_join, hc]; simp [line_content, line_pag_init]⟩

/-- Witness for c7_packing at concrete inputs: three two-character lines with
page size 10 and max_lines 2 pack losslessly, and a five-character line is
rejected at page size 4. -/
theorem c7_witness :
    add_line (line_pag_init "" "" 4 none) "abcde" false =
      Except.error PyErr.runtimeError ∧
    (∃ st, add_lines false (line_pag_init "" "" 10 (some 2)) ["ab", "cd", "ef"] =
        Except.ok st ∧
      (pages st).flatten = ["ab", "cd", "ef"]) :=
  ⟨c7_packing.1 (line_pag_init "" "" 4 none) "abcde" false (by decide),
   c7_packing.2 "" "" 10 (some 2) ["ab", "cd", "ef"] (by decide)⟩

/-! ## Starboard (src/bot/cogs/starboard.py) -/

/-- Lookup of self.star_msg_map[mid] with the dict as an association list. -/
def star_lookup (cache : List (Nat × Nat)) (mid : Nat) : Option Nat :=
  (cache.find? (fun kv => kv.1 = mid)).map (fun kv => kv.2)

/-- Starboard.get_messages, cache and API path (lines 307-342).  The remote
response is abstracted: none when the response json has no message key,
some none when the entry is null or its starboard message cannot be fetched,
some (some b) when it carries bot_message_id b and the starboard message is
found.  Returns the associated starboard message id, if any, together with
the cache as it stands afterwards. -/
def get_messages (cache : List (Nat × Nat)) (remote : Nat → Option (Option Nat))
    (mid : Nat) : Option Nat × List (Nat × Nat) :=
  match star_lookup cache mid with
  | some sid => (some sid, cache)
  | none =>
    match remote mid with
    | none => (none, cache)
    | some none => (none, cache)
    | some (some b) => (some b, cache)

/-- Remote starboard store holding one entry: message 5 with starboard
message 99. -/
def c8remote : Nat → Option (Option Nat) :=
  fun mid => if mid = 5 then some (some 99) else none

/-- C8 fails on the code: on a cache miss for an id present in the remote
store, get_messages does return the remote entry's starboard message, but it
never writes to star_msg_map — with an empty cache and message 5 stored
remotely, the returned cache is still empty and a second lookup still
misses. -/
theorem c8_counterexample :
    (get_messages [] c8remote 5).1 = some 99 ∧
    (get_messages [] c8remote 5).2 = [] ∧
    star_lookup (get_messages [] c8remote 5).2 5 = none := by
  refine ⟨rfl, rfl, rfl⟩

/-- C8 amended: on a cache miss for an id whose entry the remote store
returns, get_messages returns the remote entry's associated starboard message
rather than a not-found result, but leaves star_msg_map unchanged — no
back-fill happens in get_messages (the map is only filled later by
change_starcount or post_new_entry); on a cache hit the remote store is not
consulted and the cache is unchanged too. -/
theorem c8_amended :
    (∀ cache remote mid b, star_lookup cache mid = none → remote mid = some (some b) →
      get_messages cache remote mid = (some b, cache)) ∧
    (∀ cache remote mid sid, star_lookup cache mid = some sid →
      get_messages cache remote mid = (some sid, cache)) := by
  constructor
  · intro cache remote mid b hmiss hrem
    rw [get_messages, hmiss, hrem]
  · intro cache remote mid sid hhit
    rw [get_messages, hhit]

/-- Witness for c8_amended at concrete inputs. -/
theorem c8_witness :
    get_messages [] c8remote 5 = (some 99, []) ∧
    get_messages [(5, 42)] c8remote 5 = (some 42, [(5, 42)]) :=
  ⟨c8_amended.1 [] c8remote 5 99 rfl rfl,
   c8_amended.2 [(5, 42)] c8remote 5 42 rfl⟩

/-- The value bound to self.star_msg_map: a Python dict keyed by original
message id, or — after the wipe command — a Python list. -/
inductive StarCache where
  | pydict (m : List (Nat × Nat))
  | pylist (l : List Nat)
  deriving DecidableEq, Repr

/-- Keyed insertion self.star_msg_map[k] = v: on a dict it upserts; a Python
list only accepts index assignment below its length, so on the empty list it
raises IndexError for every key. -/
def cache_set (c : StarCache) (k v : Nat) : Except PyErr StarCache :=
  match c with
  | StarCache.pydict m =>
    Except.ok (StarCache.pydict
      (if (m.find? (fun kv => kv.1 = k)).isSome then
        m.map (fun kv => if kv.1 = k then (k, v) else kv)
      else m ++ [(k, v)]))
  | StarCache.pylist l =>
    if k < l.length then Except.ok (StarCache.pylist (l.set k v))
    else Except.error PyErr.indexError

/-- The YES branch of Starboard.delete_all_star_entries when the remote
delete returns 200 (line 138): self.star_msg_map = [] rebinds the cache to an
empty Python list, not an empty dict. -/
def delete_all_success (_c : StarCache) : StarCache := StarCache.pylist []

/-- C9: the full-wipe command breaks the dict invariant.  Insertions keep a
dict a dict, but a successful wipe leaves a Python list, on which the very
next keyed insertion (a new starboard entry, line 387 or 447) raises
IndexError instead of storing the mapping. -/
theorem c9_wipe_breaks_cache (c : StarCache) (m : List (Nat × Nat)) (k v : Nat) :
    delete_all_success c = StarCache.pylist [] ∧
    cache_set (delete_all_success c) k v = Except.error PyErr.indexError ∧
    (∃ m1, cache_set (StarCache.pydict m) k v = Except.ok (StarCache.pydict m1)) :=
  ⟨rfl, rfl, ⟨_, rfl⟩⟩

/-! ## Sync (src/bot/cogs/sync/cog.py) -/

/-- A guild member as seen by the sync cog. -/
structure GuildMember where
  mid : Nat
  avatar : String
  discriminator : Nat
  name : String
  roles : List Nat
  deriving DecidableEq, Repr

/-- The json body of a bot/users write. -/
structure UserPayload where
  avatar_hash : String
  discriminator : Nat
  uid : Nat
  in_guild : Bool
  name : String
  roles : List Nat
  deriving DecidableEq, Repr

/-- A remote call against the users endpoint: PUT bot/users/id or POST
bot/users. -/
inductive ApiCall where
  | putUser (uid : Nat) (p : UserPayload)
  | postUser (p : UserPayload)
  deriving DecidableEq, Repr

/-- The json body built in Sync.on_member_remove (lines 110-118): the member's
current data with in_guild set to True and the roles sorted. -/
def member_remove_payload (m : GuildMember) : UserPayload :=
  { avatar_hash := m.avatar, discriminator := m.discriminator, uid := m.mid,
    in_guild := true, name := m.name,
    roles := m.roles.mergeSort (fun a b => a ≤ b) }

/-- Sync.on_member_remove (lines 108-119): the remote calls it issues, in
order. -/
def on_member_remove (m : GuildMember) : List ApiCall :=
  [ApiCall.putUser m.mid (member_remove_payload m)]

/-- The in_guild field a users-endpoint call carries. -/
def call_in_guild : ApiCall → Bool
  | ApiCall.putUser _ p => p.in_guild
  | ApiCall.postUser p => p.in_guild

/-- C10: a member-remove event issues exactly one remote user update, a PUT
for that member's id, and the record it writes still carries
in_guild = true — the departed member stays marked as present. -/
theorem c10_member_remove (m : GuildMember) :
    (on_member_remove m).length = 1 ∧
    on_member_remove m = [ApiCall.putUser m.mid (member_remove_payload m)] ∧
    (member_remove_payload m).in_guild = true ∧
    (on_member_remove m).all call_in_guild = true :=
  ⟨rfl, rfl, rfl, rfl⟩
